import Mathlib

/-!
Verification of mackup's file relocation engine.

This development embeds the per-tracked-path logic of
`mackup/application.py` (ApplicationProfile.backup / restore / uninstall),
the helpers of `mackup/utils.py` (confirm, copy, delete, link,
can_file_be_synced_on_current_platform), the path resolver
`ApplicationProfile.getFilepaths`, and the absolute-path check of
`mackup/appsdb.py`.

The engine processes tracked paths one at a time, and each step touches
only the two locations `home_filepath` and `mackup_filepath` produced by
`getFilepaths`.  The filesystem is therefore modelled per tracked path as
a pair of slots (home, storage).  Entries carry an abstract content value
so that copy round-trips can be stated.  Symbolic links are modelled at
the home slot only (pointing either at the storage path or at a missing
target); the storage slot holds no symlinks, a restriction that none of
the engine's reachable flows exercises, since the engine only ever creates
links at the home path.
-/

namespace Mackup

/-! ## Python string primitives -/

/-- Python `str.startswith(prefixStr)`: the characters of `p` form an initial
segment of the characters of `s`. -/
def pyStartswith (s p : String) : Bool := p.data.isPrefixOf s.data

/-- Python `str.lower()` (ASCII case fold, which is all the program compares). -/
def pyLower (s : String) : String := ⟨s.data.map Char.toLower⟩

/-- Python `str(Path(root) / path)` (`pathlib.PurePosixPath` joining) for a
root without trailing slash and an already-normalized `path`: an absolute
`path` replaces the root, a relative one is appended after a slash. -/
def pyPathJoin (root path : String) : String :=
  if pyStartswith path "/" then path else root ++ "/" ++ path

/-! ## Path resolver — application.py, `ApplicationProfile.getFilepaths` (lines 40-52)

    return (
        str(Path(os.environ["HOME"]) / filename),
        str(Path(self.mackup.mackup_folder) / filename),
    )
-/

/-- Embeds `getFilepaths`: `home` stands for `os.environ["HOME"]` and
`mackupFolder` for `self.mackup.mackup_folder`.  The function is total: it
performs no validation of `filename`. -/
def getFilepaths (home mackupFolder filename : String) : String × String :=
  (pyPathJoin home filename, pyPathJoin mackupFolder filename)

/-- Embeds the absolute-path rejection of appsdb.py (lines 50-54 and 68-71):
`if path.startswith("/"): raise ValueError(...)`.  Returns `false` exactly
when loading raises for this tracked path. -/
def appsdbPathAccepted (path : String) : Bool := !(pyStartswith path "/")

/-- Follows the spec's words (section 4.1), for comparison with
`getFilepaths`: "pure string/path joining, no I/O, no validation beyond
rejecting absolute tracked_path (fails with InvalidPathError)". -/
def resolveSpec (homeRoot storageRoot tracked : String) :
    Except String (String × String) :=
  if pyStartswith tracked "/" then .error "InvalidPathError"
  else .ok (pyPathJoin homeRoot tracked, pyPathJoin storageRoot tracked)

/-! ## Platform predicate — utils.py, `can_file_be_synced_on_current_platform` (lines 331-359) -/

/-- Modelled from the spec: `mackup/constants.py` is not under src/.  Per the
spec ("we don't sync any file in the ~/Library folder on GNU/Linux" versus
`platform.system()`), `PLATFORM_LINUX` is the value `platform.system()`
returns on GNU/Linux, the string "Linux". -/
def PLATFORM_LINUX : String := "Linux"

/-- Embeds `can_file_be_synced_on_current_platform(path)`; `system` stands
for `platform.system()` and `home` for `os.environ["HOME"]`.

    fullpath = str(Path(os.environ["HOME"]) / path)
    library_path = str(Path(os.environ["HOME"]) / "Library")
    return platform.system() != constants.PLATFORM_LINUX or not fullpath.startswith(library_path)
-/
def can_file_be_synced_on_current_platform (system home path : String) : Bool :=
  let fullpath := pyPathJoin home path
  let library_path := pyPathJoin home "Library"
  if system = PLATFORM_LINUX then !(pyStartswith fullpath library_path) else true

/-! ## Confirmation gate — utils.py, `confirm` (lines 25-48)

The blocking `input()` loop is embedded over the stream of answers the user
would type, one list element per prompt.  The result pairs the returned
boolean with the number of prompts issued; `none` means no valid answer
ever arrives (the Python loop never returns). -/

/-- `answer.lower() in {"yes", "y"}`. -/
def answerIsYes (a : String) : Bool := pyLower a = "yes" || pyLower a = "y"

/-- `answer.lower() in {"no", "n"}`. -/
def answerIsNo (a : String) : Bool := pyLower a = "no" || pyLower a = "n"

/-- The `while True` loop of `confirm`: consume answers until one is valid;
returns the decision and how many prompts were shown. -/
def confirmLoop : List String → Option (Bool × Nat)
  | [] => none
  | a :: rest =>
    if answerIsYes a then some (true, 1)
    else if answerIsNo a then some (false, 1)
    else
      match confirmLoop rest with
      | some (b, n) => some (b, n + 1)
      | none => none

/-- Embeds `confirm`: `forceYes` is the global `FORCE_YES` flag; in forced
mode it returns `True` without prompting. -/
def confirm (forceYes : Bool) (answers : List String) : Option (Bool × Nat) :=
  if forceYes then some (true, 0) else confirmLoop answers

/-- The first answer in the stream that the loop accepts. -/
def firstValidAnswer : List String → Option String
  | [] => none
  | a :: rest =>
    if answerIsYes a || answerIsNo a then some a else firstValidAnswer rest

/-! ## Filesystem model -/

/-- State of the filesystem entry at the home path of one tracked path.
`linkStorage` is a symlink whose target is the storage path (same resolved
identity); `linkBroken` is a symlink whose target does not exist;
`special` is an entry that exists but is neither regular file, directory
nor symlink (FIFO, socket, device node). -/
inductive HomeEntry (α : Type) where
  | absent
  | file (c : α)
  | dir (c : α)
  | special
  | linkStorage
  | linkBroken
deriving DecidableEq

/-- State of the filesystem entry at the storage (mackup) path.  The engine
never creates symlinks in storage, so the model keeps that slot
symlink-free. -/
inductive StorageEntry (α : Type) where
  | absent
  | file (c : α)
  | dir (c : α)
  | special
deriving DecidableEq

/-- The filesystem as the engine sees it for one tracked path. -/
structure FS (α : Type) where
  home : HomeEntry α
  storage : StorageEntry α
deriving DecidableEq

/-- What a path resolves to after following symlinks (the view `os.stat`
takes, used by `Path.is_file`, `Path.is_dir`, `Path.exists`). -/
inductive Resolved (α : Type) where
  | file (c : α)
  | dir (c : α)
  | special
deriving DecidableEq

variable {α : Type}

/-- Resolution of the storage slot. -/
def StorageEntry.resolved : StorageEntry α → Option (Resolved α)
  | .absent => none
  | .file c => some (.file c)
  | .dir c => some (.dir c)
  | .special => some .special

/-- `Path(mackup_filepath).is_file()` (follows symlinks). -/
def StorageEntry.pyIsFile (e : StorageEntry α) : Bool :=
  match e.resolved with
  | some (.file _) => true
  | _ => false

/-- `Path(mackup_filepath).is_dir()` (follows symlinks). -/
def StorageEntry.pyIsDir (e : StorageEntry α) : Bool :=
  match e.resolved with
  | some (.dir _) => true
  | _ => false

/-- `Path(mackup_filepath).exists()` (follows symlinks). -/
def StorageEntry.pyExists (e : StorageEntry α) : Bool := e.resolved.isSome

/-- Resolution of the home slot: a `linkStorage` symlink resolves to
whatever the storage slot resolves to. -/
def FS.homeResolved (fs : FS α) : Option (Resolved α) :=
  match fs.home with
  | .absent => none
  | .file c => some (.file c)
  | .dir c => some (.dir c)
  | .special => some .special
  | .linkStorage => fs.storage.resolved
  | .linkBroken => none

/-- `Path(home_filepath).is_file()` (follows symlinks). -/
def FS.homeIsFile (fs : FS α) : Bool :=
  match fs.homeResolved with
  | some (.file _) => true
  | _ => false

/-- `Path(home_filepath).is_dir()` (follows symlinks). -/
def FS.homeIsDir (fs : FS α) : Bool :=
  match fs.homeResolved with
  | some (.dir _) => true
  | _ => false

/-- `Path(home_filepath).exists()` (follows symlinks). -/
def FS.homeExists (fs : FS α) : Bool := fs.homeResolved.isSome

/-- `Path(home_filepath).is_symlink()` (does not follow: true also for a
dangling link). -/
def FS.homeIsSymlink (fs : FS α) : Bool :=
  match fs.home with
  | .linkStorage => true
  | .linkBroken => true
  | _ => false

/-- `Path(mackup_filepath).is_file()` for the state's storage slot. -/
def FS.storageIsFile (fs : FS α) : Bool := fs.storage.pyIsFile

/-- `Path(mackup_filepath).is_dir()` for the state's storage slot. -/
def FS.storageIsDir (fs : FS α) : Bool := fs.storage.pyIsDir

/-- `Path(mackup_filepath).exists()` for the state's storage slot. -/
def FS.storageExists (fs : FS α) : Bool := fs.storage.pyExists

/-- `Path(mackup_filepath).is_symlink()`: always false, since the model's
storage slot holds no symlinks. -/
def FS.storageIsSymlink (_fs : FS α) : Bool := false

/-- `Path(home_filepath).samefile(mackup_filepath)` at the points where
backup evaluates it: there the home entry is a symlink that resolves to an
existing directory, so the two paths share an inode exactly when the home
entry is the symlink to storage and storage exists.  (Distinct real
entries never share an inode in this model: no hard links.) -/
def FS.sameFile (fs : FS α) : Bool :=
  match fs.home with
  | .linkStorage => fs.storageExists
  | _ => false

/-- `utils.delete` on the home path (utils.py lines 51-70): unlink a file
or symlink, remove a directory tree, and silently do nothing for any other
entry (a FIFO is neither `is_file`, `is_symlink` nor `is_dir`, so it is
left in place; an absent path is likewise untouched). -/
def HomeEntry.deleteResult : HomeEntry α → HomeEntry α
  | .special => .special
  | .absent => .absent
  | _ => .absent

/-- Events the engine emits while processing one tracked path, in order:
progress reports, the confirmation prompt, and the filesystem mutations. -/
inductive Event where
  | reportBackup
  | reportRestore
  | reportRevert
  | reportAlreadyBackedUp
  | reportAlreadyLinked
  | reportBrokenLink
  | reportMissing
  | reportStorageMissing
  | prompt
  | deleteStorage
  | deleteHome
  | copyHomeToStorage
  | copyStorageToHome
  | createLink
deriving DecidableEq

/-- An event that changes the filesystem. -/
def Event.isMutation : Event → Bool
  | .deleteStorage => true
  | .deleteHome => true
  | .copyHomeToStorage => true
  | .copyStorageToHome => true
  | .createLink => true
  | _ => false

/-- An event that either changes the filesystem or blocks on the user. -/
def Event.isMutationOrPrompt : Event → Bool
  | .prompt => true
  | e => e.isMutation

/-- True when a trace contains neither a mutation nor a prompt, i.e. only
progress reports. -/
def noEffects (evs : List Event) : Bool := evs.all fun e => !e.isMutationOrPrompt

/-- Result of processing one tracked path. `fatal` is an unhandled Python
exception (ValueError, AssertionError, OSError), carrying the filesystem
state at the moment it was raised. -/
inductive Outcome (α : Type) where
  | ok (fs : FS α) (events : List Event)
  | fatal (fs : FS α) (events : List Event)
deriving DecidableEq

/-- The filesystem state an outcome leaves behind. -/
def Outcome.state : Outcome α → FS α
  | .ok fs _ => fs
  | .fatal fs _ => fs

/-- The events an outcome emitted. -/
def Outcome.evts : Outcome α → List Event
  | .ok _ evs => evs
  | .fatal _ evs => evs

/-- The final state of a successfully completed run, `none` on a raise. -/
def Outcome.okState : Outcome α → Option (FS α)
  | .ok fs _ => some fs
  | .fatal _ _ => none

/-! ## utils.copy (utils.py lines 73-115) -/

/-- The ways `utils.copy` can raise. -/
inductive CopyErr where
  | srcMissing
  | unsupported
  | dstExists
deriving DecidableEq

/-- Core of `utils.copy(src, dst)`, on the resolved source and on whether
the destination slot is occupied:

    assert Path(src).exists()           -- srcMissing when it does not
    if Path(src).is_file(): shutil.copy(src, dst)
    elif Path(src).is_dir(): shutil.copytree(src, dst)   -- dstExists if dst is present
    else: raise ValueError(...)         -- unsupported

All engine call sites delete the destination first, so the destination
slot is absent when the copy runs (`shutil.copy` over an existing plain
file would overwrite; the model does not cover copying onto a leftover
special entry, which the theorems exclude). -/
def copyContent (src : Option (Resolved α)) (dstOccupied : Bool) :
    Except CopyErr (Resolved α) :=
  match src with
  | none => .error .srcMissing
  | some (.file c) => .ok (.file c)
  | some (.dir c) => if dstOccupied then .error .dstExists else .ok (.dir c)
  | some .special => .error .unsupported

/-- Write the copied content into a home slot. -/
def Resolved.toHome : Resolved α → HomeEntry α
  | .file c => .file c
  | .dir c => .dir c
  | .special => .special

/-- Write the copied content into a storage slot. -/
def Resolved.toStorage : Resolved α → StorageEntry α
  | .file c => .file c
  | .dir c => .dir c
  | .special => .special

/-- A storage entry materialized at the home path (what uninstall's copy
produces). -/
def StorageEntry.asHome : StorageEntry α → HomeEntry α
  | .absent => .absent
  | .file c => .file c
  | .dir c => .dir c
  | .special => .special

/-- `utils.copy` as a standalone operation between two generic slots:
returns the destination slot after the call together with the raise, if
any.  On a raise nothing has been written to the destination path itself
(only missing parent directories may have been created). -/
def utilsCopy (src dst : StorageEntry α) : StorageEntry α × Option CopyErr :=
  match copyContent src.resolved dst.resolved.isSome with
  | .ok r => (r.toStorage, none)
  | .error e => (dst, some e)

/-! ## Backup — application.py, `ApplicationProfile.backup` (lines 54-136) -/

/-- The branch condition of backup (lines 76-83):

    if Path(home_filepath).is_file() or (
        Path(home_filepath).is_dir()
        and not (
            Path(home_filepath).is_symlink()
            and (Path(mackup_filepath).is_file() or Path(mackup_filepath).is_dir())
            and Path(home_filepath).samefile(mackup_filepath)
        )
    ):

Note the `not (...)` guard sits only under the `is_dir()` disjunct: a home
symlink resolving to a regular storage file makes `is_file()` true and
short-circuits past the guard. -/
def backupCondition (fs : FS α) : Bool :=
  fs.homeIsFile
    || (fs.homeIsDir
        && !(fs.homeIsSymlink && (fs.storageIsFile || fs.storageIsDir)
             && fs.sameFile))

/-- Classification of the existing storage entry for the prompt message
(lines 95-103); `none` means the `raise ValueError` branch. -/
def storageFileTypeName (fs : FS α) : Option String :=
  if fs.storageIsFile then some "file"
  else if fs.storageIsDir then some "folder"
  else if fs.storageIsSymlink then some "link"
  else none

/-- Classification of the existing home entry in restore (lines 180-188). -/
def homeFileTypeName (fs : FS α) : Option String :=
  if fs.homeIsFile then some "file"
  else if fs.homeIsDir then some "folder"
  else if fs.homeIsSymlink then some "link"
  else none

/-- The shared mutation tail of backup (lines 116-120 and 123-127):
`utils.copy(home_filepath, mackup_filepath)`, `utils.delete(home_filepath)`,
`utils.link(mackup_filepath, home_filepath)`.  A raise inside `utils.copy`
(missing or unsupported source) aborts before anything was written. -/
def doBackupMove (fs : FS α) (evs : List Event) : Outcome α :=
  match copyContent fs.homeResolved fs.storageExists with
  | .error _ => .fatal fs evs
  | .ok r =>
    let afterCopy : FS α := { fs with storage := r.toStorage }
    let afterDelete : FS α := { afterCopy with home := afterCopy.home.deleteResult }
    .ok { afterDelete with home := .linkStorage }
      (evs ++ [.copyHomeToStorage, .deleteHome, .createLink])

/-- One iteration of backup's loop for a single tracked path.  `ans` is the
answer `utils.confirm` returns if the overwrite prompt is reached (it
captures `FORCE_YES` as well). -/
def backupOne (dryRun verbose ans : Bool) (fs : FS α) : Outcome α :=
  if backupCondition fs then
    if dryRun then .ok fs [.reportBackup]
    else if fs.storageExists then
      match storageFileTypeName fs with
      | some _ =>
        if ans then
          doBackupMove { fs with storage := .absent }
            [.reportBackup, .prompt, .deleteStorage]
        else .ok fs [.reportBackup, .prompt]
      | none => .fatal fs [.reportBackup]
    else doBackupMove fs [.reportBackup]
  else
    .ok fs
      (if verbose then
        if fs.homeExists then [.reportAlreadyBackedUp]
        else if fs.homeIsSymlink then [.reportBrokenLink]
        else [.reportMissing]
      else [])

/-! ## Restore — application.py, `ApplicationProfile.restore` (lines 138-207) -/

/-- `pointing_to_mackup` (lines 161-165), evaluated unconditionally before
restore's branch:

    Path(home_filepath).is_symlink()
    and Path(mackup_filepath).exists()
    and Path(mackup_filepath).samefile(home_filepath)

`samefile` stats both paths; with the home entry a dangling symlink and an
existing storage entry it raises OSError, modelled as `none`. -/
def restorePointing (fs : FS α) : Option Bool :=
  if fs.homeIsSymlink then
    if fs.storageExists then
      match fs.home with
      | .linkStorage => some true
      | _ => none
    else some false
  else some false

/-- One iteration of restore's loop for a single tracked path.  `supported`
is `utils.can_file_be_synced_on_current_platform(filename)`, embedded
separately above. -/
def restoreOne (dryRun verbose ans supported : Bool) (fs : FS α) : Outcome α :=
  match restorePointing fs with
  | none => .fatal fs []
  | some pointing =>
    if (fs.storageIsFile || fs.storageIsDir) && !pointing && supported then
      if dryRun then .ok fs [.reportRestore]
      else if fs.homeExists then
        match homeFileTypeName fs with
        | some _ =>
          if ans then
            .ok { fs with home := .linkStorage }
              [.reportRestore, .prompt, .deleteHome, .createLink]
          else .ok fs [.reportRestore, .prompt]
        | none => .fatal fs [.reportRestore]
      else
        .ok { fs with home := .linkStorage } [.reportRestore, .createLink]
    else
      .ok fs
        (if verbose then
          if fs.homeExists then [.reportAlreadyLinked]
          else if fs.homeIsSymlink then [.reportBrokenLink]
          else [.reportStorageMissing]
        else [])

/-! ## Uninstall — application.py, `ApplicationProfile.uninstall` (lines 209-247) -/

/-- One iteration of uninstall's loop for a single tracked path: if the
storage entry is a file or directory and the home entry exists,
`utils.delete(home_filepath)` then `utils.copy(mackup_filepath,
home_filepath)`; no prompt anywhere. -/
def uninstallOne (dryRun verbose : Bool) (fs : FS α) : Outcome α :=
  if fs.storageIsFile || fs.storageIsDir then
    if fs.homeExists then
      if dryRun then .ok fs [.reportRevert]
      else
        let afterDelete : FS α := { fs with home := fs.home.deleteResult }
        match copyContent afterDelete.storage.resolved afterDelete.homeExists with
        | .error _ => .fatal afterDelete [.reportRevert, .deleteHome]
        | .ok r =>
          .ok { afterDelete with home := r.toHome }
            [.reportRevert, .deleteHome, .copyStorageToHome]
    else .ok fs []
  else .ok fs (if verbose then [.reportStorageMissing] else [])

/-- `backup` immediately followed by `uninstall` on the same tracked path,
both executing (no dry run), with `ans` answering backup's prompt. -/
def backupThenUninstall (verbose ans : Bool) (fs : FS α) : Outcome α :=
  match backupOne false verbose ans fs with
  | .fatal fs1 evs => .fatal fs1 evs
  | .ok fs1 evs =>
    match uninstallOne false verbose fs1 with
    | .ok fs2 evs2 => .ok fs2 (evs ++ evs2)
    | .fatal fs2 evs2 => .fatal fs2 (evs ++ evs2)

end Mackup

namespace Mackup

variable {α : Type}

/-! ## Theorems -/

/-- Helper: the confirmation loop returns the decision of the first valid
answer, after one prompt per preceding invalid answer. -/
theorem confirmLoop_eq_spec (answers : List String) :
    confirmLoop answers =
      (firstValidAnswer answers).map
        (fun a =>
          (answerIsYes a,
            (answers.takeWhile fun x => !(answerIsYes x || answerIsNo x)).length + 1)) := by
  induction answers with
  | nil => rfl
  | cons a rest ih =>
    by_cases hy : answerIsYes a = true
    · simp [confirmLoop, firstValidAnswer, hy, List.takeWhile_cons]
    · by_cases hn : answerIsNo a = true
      · simp [confirmLoop, firstValidAnswer, hy, hn, List.takeWhile_cons,
          Bool.not_eq_true] at *
      · cases hfv : firstValidAnswer rest with
        | none =>
          rw [hfv] at ih
          simp only [Option.map_none'] at ih
          simp [confirmLoop, firstValidAnswer, hy, hn, hfv, ih]
        | some b =>
          rw [hfv] at ih
          simp only [Option.map_some'] at ih
          simp [confirmLoop, firstValidAnswer, hy, hn, hfv, ih,
            List.takeWhile_cons]

/-- C9: The confirmation gate returns true without prompting whenever the
global force-yes mode is set; otherwise it prompts until the lowercased
answer is one of "yes", "y", "no", "n" (one prompt per consumed answer),
returning true exactly when the first valid answer is a yes and false
exactly when it is a no. -/
theorem confirm_gate_spec (answers : List String) :
    confirm true answers = some (true, 0) ∧
    confirm false answers =
      (firstValidAnswer answers).map
        (fun a =>
          (answerIsYes a,
            (answers.takeWhile fun x => !(answerIsYes x || answerIsNo x)).length + 1)) ∧
    (∀ a, firstValidAnswer answers = some a →
      (answerIsYes a || answerIsNo a) = true ∧
      ¬(answerIsYes a = true ∧ answerIsNo a = true)) := by
  refine ⟨rfl, ?_, ?_⟩
  · simpa [confirm] using confirmLoop_eq_spec answers
  · intro a ha
    constructor
    · induction answers with
      | nil => exact absurd ha (by simp [firstValidAnswer])
      | cons b rest ih =>
        by_cases hv : (answerIsYes b || answerIsNo b) = true
        · rw [firstValidAnswer, if_pos hv] at ha
          cases ha
          exact hv
        · rw [firstValidAnswer, if_neg hv] at ha
          exact ih ha
    · rintro ⟨hy, hn⟩
      rw [answerIsYes] at hy
      rw [answerIsNo] at hn
      simp only [Bool.or_eq_true, decide_eq_true_eq] at hy hn
      rcases hy with hy | hy <;> rcases hn with hn | hn <;>
        exact absurd (hy.symm.trans hn) (by decide)

/-- Witness for C9: an invalid answer followed by "NO" yields false after
two prompts. -/
theorem confirm_gate_spec_witness : confirm false ["bogus", "NO"] = some (false, 2) := by
  have h := (confirm_gate_spec ["bogus", "NO"]).2.1
  rw [h]
  decide

/-- C10: on Linux the platform predicate returns false exactly for tracked
paths whose home-joined path has the string "<home>/Library" as a plain
string prefix (including siblings such as "LibrarySomething"), and it
returns true for every path when the platform is not Linux. -/
theorem can_sync_linux_library_rule (system home path : String) :
    (system ≠ PLATFORM_LINUX →
      can_file_be_synced_on_current_platform system home path = true) ∧
    (can_file_be_synced_on_current_platform PLATFORM_LINUX home path = false ↔
      pyStartswith (pyPathJoin home path) (home ++ "/Library") = true) := by
  constructor
  · intro hsys
    simp [can_file_be_synced_on_current_platform, hsys]
  · have hlib : pyPathJoin home "Library" = home ++ "/Library" := by
      rw [pyPathJoin, if_neg (by simp [show pyStartswith "Library" "/" = false from by decide]),
        String.append_assoc, show ("/" ++ "Library" : String) = "/Library" from by decide]
    simp [can_file_be_synced_on_current_platform, hlib]

/-- Witness for C10: the sibling entry "LibrarySomething" is refused on
Linux, while "~/Library/Preferences" is allowed on Darwin. -/
theorem can_sync_linux_library_rule_witness :
    can_file_be_synced_on_current_platform "Linux" "/home/user" "LibrarySomething" = false ∧
    can_file_be_synced_on_current_platform "Darwin" "/home/user" "Library/Preferences" = true := by
  constructor
  · exact (can_sync_linux_library_rule "Linux" "/home/user" "LibrarySomething").2.mpr
      (by decide)
  · exact (can_sync_linux_library_rule "Darwin" "/home/user" "Library/Preferences").1
      (by decide)

/-- Counterexample for C3: on the absolute tracked path "/etc/passwd" the
source resolver `getFilepaths` does not fail at all — Python path joining
makes the absolute path replace both roots — whereas the spec-side
contract `resolveSpec` fails with InvalidPathError. -/
theorem getFilepaths_absolute_counterexample :
    getFilepaths "/home/user" "/home/user/Dropbox/Mackup" "/etc/passwd"
      = ("/etc/passwd", "/etc/passwd") ∧
    resolveSpec "/home/user" "/home/user/Dropbox/Mackup" "/etc/passwd"
      = .error "InvalidPathError" := by
  refine ⟨by decide, ?_⟩
  rw [resolveSpec, if_pos (by simp [show pyStartswith "/etc/passwd" "/" = true from by decide])]

/-- C3 (amended): the resolver joins the tracked path onto both roots and
never fails; a relative path is appended after a slash, an absolute path
replaces both roots, and absolute paths are instead rejected (ValueError)
at load time by the applications database. -/
theorem getFilepaths_join_semantics (home mackupFolder p : String) :
    (pyStartswith p "/" = false →
      getFilepaths home mackupFolder p = (home ++ "/" ++ p, mackupFolder ++ "/" ++ p)) ∧
    (pyStartswith p "/" = true →
      getFilepaths home mackupFolder p = (p, p) ∧ appsdbPathAccepted p = false) := by
  constructor
  · intro habs
    simp [getFilepaths, pyPathJoin, habs]
  · intro habs
    refine ⟨by simp [getFilepaths, pyPathJoin, habs], by simp [appsdbPathAccepted, habs]⟩

/-- Witness for C3 (amended), at the absolute path "/etc". -/
theorem getFilepaths_join_semantics_witness :
    getFilepaths "/home/user" "/mackup" "/etc" = ("/etc", "/etc") ∧
    appsdbPathAccepted "/etc" = false :=
  (getFilepaths_join_semantics "/home/user" "/mackup" "/etc").2 (by decide)

/-- C6: copying a source that exists but is neither a regular file nor a
directory (FIFO, socket, device node) fails with the unsupported-entry
error and writes nothing to the destination: the destination slot is
unchanged, so an absent destination stays absent. -/
theorem copy_unsupported_source (src dst : StorageEntry α)
    (hex : src.pyExists = true) (hf : src.pyIsFile = false) (hd : src.pyIsDir = false) :
    utilsCopy src dst = (dst, some CopyErr.unsupported) ∧
    (dst = .absent → (utilsCopy src dst).1 = .absent) := by
  cases src with
  | absent => exact absurd hex (by simp [StorageEntry.pyExists, StorageEntry.resolved])
  | file c => exact absurd hf (by simp [StorageEntry.pyIsFile, StorageEntry.resolved])
  | dir c => exact absurd hd (by simp [StorageEntry.pyIsDir, StorageEntry.resolved])
  | special => exact ⟨rfl, fun h => by subst h; rfl⟩

/-- Witness for C6: a FIFO source and an absent destination. -/
theorem copy_unsupported_source_witness :
    utilsCopy (StorageEntry.special : StorageEntry Nat) .absent
      = (.absent, some CopyErr.unsupported) ∧
    ((StorageEntry.absent : StorageEntry Nat) = .absent →
      (utilsCopy (StorageEntry.special : StorageEntry Nat) .absent).1 = .absent) :=
  copy_unsupported_source StorageEntry.special StorageEntry.absent
    (by decide) (by decide) (by decide)

/-- C1 (evaluation of the failing input): with the home entry a symlink
resolving to an existing regular storage file, backup does not skip.
`Path.is_file` follows the symlink and short-circuits past the
already-linked guard, so the code reports, prompts, deletes the storage
file, and then raises on `utils.copy`'s existence assertion against the
now-dangling home link — the only copy of the content is gone.  With a
directory storage target the guard applies and the skip works as
documented (report only, zero mutations). -/
theorem backup_symlinked_file_bug :
    backupOne false true true (⟨.linkStorage, .file 0⟩ : FS Nat)
      = .fatal ⟨.linkStorage, .absent⟩ [.reportBackup, .prompt, .deleteStorage] ∧
    backupOne false true true (⟨.linkStorage, .dir 0⟩ : FS Nat)
      = .ok ⟨.linkStorage, .dir 0⟩ [.reportAlreadyBackedUp] := by decide

/-- C2: with dry run enabled, backup, restore and uninstall leave every
modelled filesystem state untouched and emit neither a mutation event nor
a confirmation prompt (only progress reports), whatever the prompt answer
or the platform predicate would have been. -/
theorem dry_run_never_mutates (fs : FS α) (verbose ans supported : Bool) :
    ((backupOne true verbose ans fs).state = fs ∧
      noEffects (backupOne true verbose ans fs).evts = true) ∧
    ((restoreOne true verbose ans supported fs).state = fs ∧
      noEffects (restoreOne true verbose ans supported fs).evts = true) ∧
    ((uninstallOne true verbose fs).state = fs ∧
      noEffects (uninstallOne true verbose fs).evts = true) := by
  obtain ⟨h, s⟩ := fs
  cases h <;> cases s <;> cases verbose <;> cases supported <;>
    exact ⟨⟨rfl, rfl⟩, ⟨rfl, rfl⟩, ⟨rfl, rfl⟩⟩

/-- C4: when backup reaches the overwrite prompt (the backup branch is
taken, a storage entry exists and classifies for the message) and the user
declines, the outcome is the untouched input state with only the report
and the prompt emitted — nothing deleted, copied or linked — and the run
continues normally. -/
theorem backup_decline_preserves_state (fs : FS α) (verbose : Bool)
    (hcond : backupCondition fs = true) (hst : fs.storageExists = true)
    (hty : (storageFileTypeName fs).isSome = true) :
    backupOne false verbose false fs = .ok fs [.reportBackup, .prompt] := by
  obtain ⟨t, ht⟩ := Option.isSome_iff_exists.mp hty
  simp [backupOne, hcond, hst, ht]

/-- Witness for C4: a home file with an existing storage file, prompt
declined. -/
theorem backup_decline_preserves_state_witness :
    backupOne false false false (⟨.file 0, .file 1⟩ : FS Nat)
      = .ok ⟨.file 0, .file 1⟩ [.reportBackup, .prompt] :=
  backup_decline_preserves_state ⟨.file 0, .file 1⟩ false
    (by decide) (by decide) (by decide)

/-- Counterexample for C5: with the home entry a regular file and the
storage entry a FIFO, backup raises while classifying the storage entry
before any prompt or mutation, so the backup-then-uninstall sequence
aborts and the storage slot never holds the home content. -/
theorem backup_uninstall_fifo_storage_counterexample :
    backupThenUninstall false true (⟨.file 0, .special⟩ : FS Nat)
      = .fatal ⟨.file 0, .special⟩ [.reportBackup] ∧
    (backupThenUninstall false true (⟨.file 0, .special⟩ : FS Nat)).state.storage
      ≠ .file 0 := by decide

/-- C5 (amended): for a home entry that is a real file or directory with
some content, backup (prompt answered yes) followed by uninstall completes
and leaves a real entry of the same kind and content at home, with the
storage copy holding that same content — provided the pre-existing storage
entry is not an unsupported special entry. -/
theorem backup_then_uninstall_roundtrip (c : α) (st : StorageEntry α)
    (verbose : Bool) (hst : st ≠ .special) :
    (backupThenUninstall verbose true ⟨.file c, st⟩).okState
      = some ⟨.file c, .file c⟩ ∧
    (backupThenUninstall verbose true ⟨.dir c, st⟩).okState
      = some ⟨.dir c, .dir c⟩ := by
  cases st with
  | absent => exact ⟨rfl, rfl⟩
  | file d => exact ⟨rfl, rfl⟩
  | dir d => exact ⟨rfl, rfl⟩
  | special => exact absurd rfl hst

/-- Witness for C5 (amended): a home file backed up into empty storage and
then uninstalled. -/
theorem backup_then_uninstall_roundtrip_witness :
    (backupThenUninstall false true (⟨.file 0, .absent⟩ : FS Nat)).okState
      = some ⟨.file 0, .file 0⟩ ∧
    (backupThenUninstall false true (⟨.dir 0, .absent⟩ : FS Nat)).okState
      = some ⟨.dir 0, .dir 0⟩ :=
  backup_then_uninstall_roundtrip 0 StorageEntry.absent false (by decide)

/-- Counterexample for C7: with a FIFO storage entry and a regular home
file — both existing — uninstall does nothing at all: the home entry is
not deleted and nothing is copied, because the code requires the storage
entry to be a regular file or directory, not merely to exist. -/
theorem uninstall_fifo_storage_counterexample :
    ((⟨.file 0, .special⟩ : FS Nat).storageExists = true ∧
      (⟨.file 0, .special⟩ : FS Nat).homeExists = true) ∧
    uninstallOne false false (⟨.file 0, .special⟩ : FS Nat)
      = .ok ⟨.file 0, .special⟩ [] := by decide

/-- C7 (amended): when the storage entry is a regular file or directory
and the home entry exists (and is not an unsupported special entry),
uninstall deletes the home entry and then copies the storage entry to the
home path, in that order, with no prompt, and the storage slot is left
untouched; when the home entry does not exist, uninstall changes nothing
and prompts for nothing. -/
theorem uninstall_semantics (fs : FS α) (verbose : Bool) :
    ((fs.storageIsFile || fs.storageIsDir) = true → fs.homeExists = true →
      fs.home ≠ .special →
      uninstallOne false verbose fs
        = .ok ⟨fs.storage.asHome, fs.storage⟩
            [.reportRevert, .deleteHome, .copyStorageToHome]) ∧
    (fs.homeExists = false →
      (uninstallOne false verbose fs).state = fs ∧
      noEffects (uninstallOne false verbose fs).evts = true) := by
  obtain ⟨h, s⟩ := fs
  refine ⟨fun h1 h2 h3 => ?_, fun h4 => ?_⟩
  · cases h <;> cases s <;>
      first
        | rfl
        | exact Bool.noConfusion h1
        | exact Bool.noConfusion h2
        | exact absurd rfl h3
  · cases h <;> cases s <;> cases verbose <;>
      first
        | exact ⟨rfl, rfl⟩
        | exact Bool.noConfusion h4

/-- Witness for C7 (amended): a home symlink to an existing storage file is
replaced by a real copy; and a missing home entry is left alone. -/
theorem uninstall_semantics_witness :
    uninstallOne false false (⟨.linkStorage, .file 5⟩ : FS Nat)
      = .ok ⟨.file 5, .file 5⟩ [.reportRevert, .deleteHome, .copyStorageToHome] :=
  (uninstall_semantics (⟨.linkStorage, .file 5⟩ : FS Nat) false).1
    (by decide) (by decide) (by decide)

/-- Counterexample for C8: with an existing FIFO storage entry, a permitted
path and an entirely absent home entry, restore creates no symlink and
performs no mutation — the code requires the storage entry to be a regular
file or directory, not merely to exist. -/
theorem restore_fifo_storage_counterexample :
    (⟨.absent, .special⟩ : FS Nat).storageExists = true ∧
    restoreOne false false true true (⟨.absent, .special⟩ : FS Nat)
      = .ok ⟨.absent, .special⟩ [] := by decide

/-- C8 (amended): restore mutates nothing when the storage entry is absent;
and when the storage entry is a regular file or directory (following
symlinks), the path is permitted on the current platform and the home
entry is entirely absent, restore creates the symlink at the home path
pointing to the storage path without issuing any prompt. -/
theorem restore_semantics (fs : FS α) (dryRun verbose ans supported : Bool) :
    (fs.storage = .absent →
      (restoreOne dryRun verbose ans supported fs).state = fs ∧
      noEffects (restoreOne dryRun verbose ans supported fs).evts = true) ∧
    ((fs.storageIsFile || fs.storageIsDir) = true → fs.home = .absent →
      restoreOne false verbose ans true fs
        = .ok ⟨.linkStorage, fs.storage⟩ [.reportRestore, .createLink]) := by
  obtain ⟨h, s⟩ := fs
  refine ⟨fun habs => ?_, fun h1 h2 => ?_⟩
  · have habs2 : s = .absent := habs
    subst habs2
    cases h <;> cases verbose <;> exact ⟨rfl, rfl⟩
  · have h2b : h = .absent := h2
    subst h2b
    cases s <;> first | rfl | exact Bool.noConfusion h1

/-- Witness for C8 (amended): an absent home entry and a storage file yield
the symlink with no prompt. -/
theorem restore_semantics_witness :
    restoreOne false false true true (⟨.absent, .file 3⟩ : FS Nat)
      = .ok ⟨.linkStorage, .file 3⟩ [.reportRestore, .createLink] :=
  (restore_semantics (⟨.absent, .file 3⟩ : FS Nat) false false true true).2
    (by decide) (by decide)

end Mackup
